import Mathlib

/-!
# nexus-poc: bootstrap code (`setup.go`) and demo entry point (`go/poc.go`)

A shallow embedding of the two Go source files.  Calls that leave the process
(the Temporal client, the file system, TLS loading) are answered by a `World`
value: one function per external call, from the request to what the call
returns.  Every run of the program issues each request at most once, so a
`World` covers any server, stateful or not.

A run is the list of RPCs issued, in order, together with how the function
ended: a normal return, `log.Panic`, `log.Fatal`, or a runtime panic.
-/

namespace NexusPoc

/-! ## Go values shared by both files -/

/-- The kinds of Go `error` the program's documentation tells apart. -/
inductive ErrKind
  | namespaceAlreadyExists
  | other
  deriving DecidableEq, Repr

/-- A non-nil Go `error`: its kind and its `Error()` text.  A nil error is
`none : Option GoError`. -/
structure GoError where
  kind : ErrKind
  msg : String
  deriving DecidableEq, Repr

/-- A `tls.Certificate` as returned by `tls.LoadX509KeyPair`. -/
structure Certificate where
  raw : String
  deriving DecidableEq, Repr

/-- The type `tls.Config`, with the fields the program sets.  `RootCAs` is the
list of PEM blobs appended to the pool, `none` when the field is left nil. -/
structure TLSConfig where
  Certificates : List Certificate
  ServerName : String
  RootCAs : Option (List String)
  deriving DecidableEq, Repr

/-- The type `client.Options`, with the fields the program sets
(`ConnectionOptions.TLS` is `none` when left nil). -/
structure ClientOptions where
  HostPort : String
  Namespace : String
  TLS : Option TLSConfig
  deriving DecidableEq, Repr

/-- A dialled `client.Client`, identified by the options it was dialled with. -/
structure Client where
  dialled : ClientOptions
  deriving DecidableEq, Repr

/-! ## Request and response messages used by `setupEnv` -/

/-- Go `time.Duration`: a count of nanoseconds. -/
abbrev Duration := Int

def Nanosecond : Duration := 1
def Microsecond : Duration := 1000 * Nanosecond
def Millisecond : Duration := 1000 * Microsecond
def Second : Duration := 1000 * Millisecond
def Minute : Duration := 60 * Second
def Hour : Duration := 60 * Minute

structure RegisterNamespaceRequest where
  Namespace : String
  WorkflowExecutionRetentionPeriod : Option Duration
  deriving DecidableEq, Repr

structure OutgoingServiceUpdate_CreateOrUpdateService where
  Name : String
  BaseUrl : String
  deriving DecidableEq, Repr

/-- The `Variant` oneof of `namespace.OutgoingServiceUpdate`; the program only
builds the `CreateOrUpdateService` variant. -/
inductive OutgoingServiceUpdate
  | CreateOrUpdateService_ (CreateOrUpdateService : OutgoingServiceUpdate_CreateOrUpdateService)
  deriving DecidableEq, Repr

structure UpdateNamespaceInfo where
  OutgoingServiceUpdates : List OutgoingServiceUpdate
  deriving DecidableEq, Repr

structure UpdateNamespaceRequest where
  Namespace : String
  UpdateInfo : Option UpdateNamespaceInfo
  deriving DecidableEq, Repr

structure DescribeNamespaceRequest where
  Namespace : String
  deriving DecidableEq, Repr

/-- A value of the outgoing service registry; `setupEnv` reads its `BaseUrl`. -/
structure OutgoingServiceSpec where
  BaseUrl : String
  deriving DecidableEq, Repr

/-- The message `namespace.NamespaceInfo`, with the field `setupEnv` reads.  The
declaration is generated protobuf code outside the repository.  The generated
Go code holds messages behind pointers (`setupEnv` itself builds
`[]*namespace.OutgoingServiceUpdate` and `&namespace.UpdateNamespaceInfo`), and
a map field with message values has the Go type
`map[string]*OutgoingServiceSpec`: indexing it with an absent key gives the
zero value of the element type, a nil pointer.  The map is an association
list here and `List.lookup` answering `none` is that nil pointer. -/
structure NamespaceInfo where
  OutgoingServiceRegistry : List (String × OutgoingServiceSpec)
  deriving DecidableEq, Repr

/-- The message `workflowservice.DescribeNamespaceResponse`; the message-typed
field `NamespaceInfo` is a pointer in Go, `none` when nil. -/
structure DescribeNamespaceResponse where
  NamespaceInfo : Option NamespaceInfo
  deriving DecidableEq, Repr

structure NexusIncomingService where
  Name : String
  Namespace : String
  TaskQueue : String
  deriving DecidableEq, Repr

structure CreateOrUpdateNexusIncomingServiceRequest where
  NexusIncomingService : Option NexusIncomingService
  deriving DecidableEq, Repr

structure GetNexusIncomingServiceRequest where
  Name : String
  deriving DecidableEq, Repr

/-- The message `operatorservice.GetNexusIncomingServiceResponse`; the
message-typed field is a pointer in Go, `none` when nil. -/
structure GetNexusIncomingServiceResponse where
  NexusIncomingService : Option NexusIncomingService
  deriving DecidableEq, Repr

/-- An RPC issued on the admin client, with its request. -/
inductive Rpc
  | RegisterNamespace (req : RegisterNamespaceRequest)
  | UpdateNamespace (req : UpdateNamespaceRequest)
  | DescribeNamespace (req : DescribeNamespaceRequest)
  | CreateOrUpdateNexusIncomingService (req : CreateOrUpdateNexusIncomingServiceRequest)
  | GetNexusIncomingService (req : GetNexusIncomingServiceRequest)
  deriving DecidableEq, Repr

/-- One operand of a `log.Panic(...)` or `log.Fatal(...)` call. -/
inductive LogArg
  | str (s : String)
  | err (e : GoError)
  | registry (r : List (String × OutgoingServiceSpec))
  | incoming (s : GetNexusIncomingServiceResponse)
  deriving DecidableEq, Repr

/-- How a function of the program ends. -/
inductive Outcome
  | returned
  | logPanic (args : List LogArg)
  | logFatal (args : List LogArg)
  | nilDereference
  deriving DecidableEq, Repr

/-- A run: the RPCs issued, oldest first, and how the function ended. -/
structure Run where
  trace : List Rpc
  outcome : Outcome
  deriving DecidableEq, Repr

/-- What every external call of `setup.go` returns, per request. -/
structure World where
  filepathJoin : String → String → String
  loadX509KeyPair : String → String → Except GoError Certificate
  readFile : String → Except GoError String
  appendCertsFromPEM : String → Bool
  dial : ClientOptions → Option GoError
  registerNamespace : RegisterNamespaceRequest → Option GoError
  updateNamespace : UpdateNamespaceRequest → Option GoError
  describeNamespace : DescribeNamespaceRequest → Except GoError DescribeNamespaceResponse
  createOrUpdateNexusIncomingService : CreateOrUpdateNexusIncomingServiceRequest → Option GoError
  getNexusIncomingService : GetNexusIncomingServiceRequest → Except GoError GetNexusIncomingServiceResponse

/-- The error a `World` returns for an RPC, `none` when the call succeeds. -/
def World.errorOf (w : World) : Rpc → Option GoError
  | .RegisterNamespace req => w.registerNamespace req
  | .UpdateNamespace req => w.updateNamespace req
  | .DescribeNamespace req =>
    match w.describeNamespace req with
    | .error e => some e
    | .ok _ => none
  | .CreateOrUpdateNexusIncomingService req => w.createOrUpdateNexusIncomingService req
  | .GetNexusIncomingService req =>
    match w.getNexusIncomingService req with
    | .error e => some e
    | .ok _ => none

/-! ## `setup.go` -/

/-- The struct `options` of `setup.go`. -/
structure options where
  cloud : Bool
  certsDir : String
  skipEnvSetup : Bool
  callerNamespace : String
  handlerNamespace : String
  deriving DecidableEq, Repr

/-- The function `createCloudAdminClient`: the dialled client, or the operands
of the `log.Panic` that ends it. -/
def createCloudAdminClient (w : World) (certsDir : String) : Except (List LogArg) Client :=
  let clientCert := w.filepathJoin certsDir "internode.crt"
  let clientKey := w.filepathJoin certsDir "internode.key"
  let serverRootCACert := w.filepathJoin certsDir "internode-ca.crt"
  match w.loadX509KeyPair clientCert clientKey with
  | .error err => .error [.err err]
  | .ok cert =>
    match w.readFile serverRootCACert with
    | .error err => .error [.str "failed reading server CA:", .err err]
    | .ok b =>
      if !w.appendCertsFromPEM b then .error [.str "server CA PEM file invalid"]
      else
        let o : ClientOptions :=
          { HostPort := "localhost:7233"
            Namespace := "ignored"
            TLS := some
              { Certificates := [cert]
                ServerName := "frontend.temporal.svc.cluster.local"
                RootCAs := some [b] } }
        match w.dial o with
        | some err => .error [.err err]
        | none => .ok ⟨o⟩

/-- The function `createAdminClient`. -/
def createAdminClient (w : World) (opts : options) : Except (List LogArg) Client :=
  if opts.cloud then createCloudAdminClient w opts.certsDir
  else
    let o : ClientOptions := { HostPort := "localhost:7233", Namespace := "ignored", TLS := none }
    match w.dial o with
    | some err => .error [.err err]
    | none => .ok ⟨o⟩

/-- The function `createCloudClients`: the caller and the handler client. -/
def createCloudClients (w : World) (opts : options) : Except (List LogArg) (Client × Client) :=
  let clientCert := w.filepathJoin opts.certsDir "nexus-client.pem"
  let clientKey := w.filepathJoin opts.certsDir "nexus-client.key"
  match w.loadX509KeyPair clientCert clientKey with
  | .error err => .error [.err err]
  | .ok cert =>
    let oc : ClientOptions :=
      { HostPort := opts.callerNamespace ++ ".tmprl-test.cloud:7233"
        Namespace := opts.callerNamespace
        TLS := some
          { Certificates := [cert]
            ServerName := opts.callerNamespace ++ ".tmprl-test.cloud"
            RootCAs := none } }
    match w.dial oc with
    | some err => .error [.err err]
    | none =>
      let oh : ClientOptions :=
        { HostPort := opts.handlerNamespace ++ ".tmprl-test.cloud:7233"
          Namespace := opts.handlerNamespace
          TLS := some
            { Certificates := [cert]
              ServerName := opts.handlerNamespace ++ ".tmprl-test.cloud"
              RootCAs := none } }
      match w.dial oh with
      | some err => .error [.err err]
      | none => .ok (⟨oc⟩, ⟨oh⟩)

/-- The function `createClients`: the caller and the handler client. -/
def createClients (w : World) (opts : options) : Except (List LogArg) (Client × Client) :=
  if opts.cloud then createCloudClients w opts
  else
    let oc : ClientOptions :=
      { HostPort := "localhost:7233", Namespace := opts.callerNamespace, TLS := none }
    match w.dial oc with
    | some err => .error [.err err]
    | none =>
      let oh : ClientOptions :=
        { HostPort := "localhost:7233", Namespace := opts.handlerNamespace, TLS := none }
      match w.dial oh with
      | some err => .error [.err err]
      | none => .ok (⟨oc⟩, ⟨oh⟩)

/-- The first `RegisterNamespace` request of `setupEnv` (`rp := time.Hour * 24`). -/
def registerCallerRequest : RegisterNamespaceRequest :=
  { Namespace := "nexus-poc-caller.temporal-dev"
    WorkflowExecutionRetentionPeriod := some (Hour * 24) }

/-- The second `RegisterNamespace` request of `setupEnv`. -/
def registerHandlerRequest : RegisterNamespaceRequest :=
  { Namespace := "nexus-poc-handler.temporal-dev"
    WorkflowExecutionRetentionPeriod := some (Hour * 24) }

/-- The `UpdateNamespace` request of `setupEnv`. -/
def updateNamespaceRequest (serviceName : String) : UpdateNamespaceRequest :=
  { Namespace := "nexus-poc-caller.temporal-dev"
    UpdateInfo := some
      { OutgoingServiceUpdates :=
          [.CreateOrUpdateService_
            { Name := serviceName
              BaseUrl := "http://localhost:7253/" ++ serviceName }] } }

/-- The `DescribeNamespace` request of `setupEnv`. -/
def describeNamespaceRequest : DescribeNamespaceRequest :=
  { Namespace := "nexus-poc-caller.temporal-dev" }

/-- The `CreateOrUpdateNexusIncomingService` request of `setupEnv`. -/
def createOrUpdateRequest (serviceName : String) : CreateOrUpdateNexusIncomingServiceRequest :=
  { NexusIncomingService := some
      { Name := serviceName
        Namespace := "nexus-poc-handler.temporal-dev"
        TaskQueue := "my-handler-queue" } }

/-- The `GetNexusIncomingService` request of `setupEnv`. -/
def getServiceRequest (serviceName : String) : GetNexusIncomingServiceRequest :=
  { Name := serviceName }

/-- The RPCs of the `if !opts.cloud` block of `setupEnv`.  Both calls are
expression statements: what they return is discarded. -/
def registerCalls (opts : options) : List Rpc :=
  if !opts.cloud then
    [.RegisterNamespace registerCallerRequest, .RegisterNamespace registerHandlerRequest]
  else []

/-- The function `setupEnv`.  The package-level constant `serviceName` is
declared in a file that is not part of the sources and is a parameter.  The
`ctx` argument is only handed on to the RPCs and is left out.  A nil pointer
met by a field selection (`d.NamespaceInfo`, the map value, or
`s.NexusIncomingService`) ends the run in a runtime panic. -/
def setupEnv (serviceName : String) (w : World) (opts : options) : Run :=
  match createAdminClient w opts with
  | .error args => ⟨[], .logPanic args⟩
  | .ok _ =>
    let t0 := registerCalls opts
    let t1 := t0 ++ [.UpdateNamespace (updateNamespaceRequest serviceName)]
    match w.updateNamespace (updateNamespaceRequest serviceName) with
    | some err => ⟨t1, .logFatal [.err err]⟩
    | none =>
      let t2 := t1 ++ [.DescribeNamespace describeNamespaceRequest]
      match w.describeNamespace describeNamespaceRequest with
      | .error err => ⟨t2, .logFatal [.err err]⟩
      | .ok d =>
        match d.NamespaceInfo with
        | none => ⟨t2, .nilDereference⟩
        | some info =>
          match info.OutgoingServiceRegistry.lookup serviceName with
          | none => ⟨t2, .nilDereference⟩
          | some spec =>
            if spec.BaseUrl = "" then
              ⟨t2, .logFatal [.str "outgoing service registry not updated",
                .registry info.OutgoingServiceRegistry]⟩
            else
              let t3 := t2 ++ [.CreateOrUpdateNexusIncomingService (createOrUpdateRequest serviceName)]
              match w.createOrUpdateNexusIncomingService (createOrUpdateRequest serviceName) with
              | some err => ⟨t3, .logFatal [.err err]⟩
              | none =>
                let t4 := t3 ++ [.GetNexusIncomingService (getServiceRequest serviceName)]
                match w.getNexusIncomingService (getServiceRequest serviceName) with
                | .error err => ⟨t4, .logFatal [.err err]⟩
                | .ok s =>
                  match s.NexusIncomingService with
                  | none => ⟨t4, .nilDereference⟩
                  | some svc =>
                    if svc.Name ≠ serviceName then
                      ⟨t4, .logFatal [.str "incoming service registry not updated", .incoming s]⟩
                    else ⟨t4, .returned⟩

/-! ## The standard library package `flag`, as `getOptions` uses it -/

/-- Go `strconv.ParseBool`: the accepted spellings, `none` for an error. -/
def parseBool (s : String) : Option Bool :=
  if s ∈ ["1", "t", "T", "TRUE", "true", "True"] then some true
  else if s ∈ ["0", "f", "F", "FALSE", "false", "False"] then some false
  else none

/-- A formal flag of a `flag.FlagSet`: its name, whether its value is a boolean
flag, and `Value.Set`, which writes through the pointer handed to `BoolVar` or
`StringVar` (`none` when the text does not parse). -/
structure Flag where
  Name : String
  isBoolFlag : Bool
  set : String → options → Option options

/-- A `flag.FlagSet`: the formal flags in the order they were defined. -/
structure FlagSet where
  formal : List Flag

/-- The method `FlagSet.BoolVar`: stores the default through the pointer and
defines the flag. -/
def FlagSet.BoolVar (f : FlagSet) (p : Bool → options → options) (name : String) (value : Bool)
    (o : options) : FlagSet × options :=
  (⟨f.formal ++ [{ Name := name, isBoolFlag := true,
                   set := fun s o => (parseBool s).map fun b => p b o }]⟩, p value o)

/-- The method `FlagSet.StringVar`: stores the default through the pointer and
defines the flag. -/
def FlagSet.StringVar (f : FlagSet) (p : String → options → options) (name : String)
    (value : String) (o : options) : FlagSet × options :=
  (⟨f.formal ++ [{ Name := name, isBoolFlag := false, set := fun s o => some (p s o) }]⟩,
    p value o)

/-- The errors `FlagSet.parseOne` reports. -/
inductive ParseError
  | ErrHelp
  | badFlagSyntax (s : String)
  | notDefined (name : String)
  | invalidBooleanValue (value name : String)
  | needsArgument (name : String)
  | invalidValue (value name : String)
  deriving DecidableEq, Repr

/-- What `FlagSet.parseOne` returns, with the arguments still to parse and the
variables the flags point to. -/
structure ParseStep where
  seen : Bool
  err : Option ParseError
  args : List String
  opts : options

/-- The scan of `parseOne` for the first `=` of a flag. -/
def cutAtEq : List Char → List Char × Option (List Char)
  | [] => ([], none)
  | c :: cs =>
    if c = '=' then ([], some cs)
    else ((c :: (cutAtEq cs).1), (cutAtEq cs).2)

/-- The loop `for i := 1; i < len(name); i++` of `parseOne`: the scan skips
the first character (an equals sign cannot be first). -/
def splitNameValue : List Char → List Char × Option (List Char)
  | [] => ([], none)
  | c :: cs => ((c :: (cutAtEq cs).1), (cutAtEq cs).2)

/-- The second half of `FlagSet.parseOne` ("it's a flag. does it have an
argument?"), entered with `f.args` already advanced to `rest`: look the name
up, find the value and set it. -/
def FlagSet.setFlag (f : FlagSet) (name : String) (value : Option String) (rest : List String)
    (o : options) : ParseStep :=
  match f.formal.find? (fun fl => fl.Name = name) with
  | none =>
    if name = "help" ∨ name = "h" then ⟨false, some .ErrHelp, rest, o⟩
    else ⟨false, some (.notDefined name), rest, o⟩
  | some fl =>
    if fl.isBoolFlag then
      match value with
      | some v =>
        match fl.set v o with
        | none => ⟨false, some (.invalidBooleanValue v name), rest, o⟩
        | some o1 => ⟨true, none, rest, o1⟩
      | none =>
        match fl.set "true" o with
        | none => ⟨false, some (.invalidBooleanValue "true" name), rest, o⟩
        | some o1 => ⟨true, none, rest, o1⟩
    else
      match value, rest with
      | some v, _ =>
        match fl.set v o with
        | none => ⟨false, some (.invalidValue v name), rest, o⟩
        | some o1 => ⟨true, none, rest, o1⟩
      | none, v :: rest1 =>
        match fl.set v o with
        | none => ⟨false, some (.invalidValue v name), rest1, o⟩
        | some o1 => ⟨true, none, rest1, o1⟩
      | none, [] => ⟨false, some (.needsArgument name), rest, o⟩

/-- The method `FlagSet.parseOne` of the Go standard library.  A string is
read as its list of characters; the characters tested (`-`, `=`) are ASCII, so
byte and character positions agree where it matters. -/
def FlagSet.parseOne (f : FlagSet) (args : List String) (o : options) : ParseStep :=
  match args with
  | [] => ⟨false, none, args, o⟩
  | s :: rest =>
    if s.data.length < 2 ∨ s.data.head? ≠ some '-' then ⟨false, none, args, o⟩
    else if s.data.get? 1 = some '-' ∧ s.data.length = 2 then ⟨false, none, rest, o⟩
    else
      let name := s.data.drop (if s.data.get? 1 = some '-' then 2 else 1)
      if name.length = 0 ∨ name.head? = some '-' ∨ name.head? = some '=' then
        ⟨false, some (.badFlagSyntax s), args, o⟩
      else
        f.setFlag (String.mk (splitNameValue name).1) ((splitNameValue name).2.map String.mk) rest o

/-- How `getOptions` ends: the parsed options, or `os.Exit` with a status (the
flag set is created with `flag.ExitOnError`).  `outOfFuel` is what the model
answers when the loop bound of `FlagSet.Parse` is used up. -/
inductive Parsed
  | ok (opts : options)
  | exit (code : Nat)
  | outOfFuel
  deriving DecidableEq, Repr

/-- The loop of `FlagSet.Parse` under `flag.ExitOnError`: `os.Exit(0)` for
`ErrHelp`, `os.Exit(2)` for any other error.  The loop is bounded by `fuel`. -/
def FlagSet.Parse (f : FlagSet) : Nat → List String → options → Parsed
  | 0, _, _ => .outOfFuel
  | fuel + 1, args, o =>
    match f.parseOne args o with
    | ⟨true, _, args1, o1⟩ => f.Parse fuel args1 o1
    | ⟨false, none, _, o1⟩ => .ok o1
    | ⟨false, some e, _, _⟩ => if e = .ErrHelp then .exit 0 else .exit 2

/-- The zero value of `options` (`var opts options`). -/
def zeroOptions : options :=
  { cloud := false, certsDir := "", skipEnvSetup := false,
    callerNamespace := "", handlerNamespace := "" }

/-- The five flag definitions of `getOptions`, in source order: the flag set
and the variables after the defaults were stored. -/
def getOptionsFlags : FlagSet × options :=
  let s0 : FlagSet := ⟨[]⟩
  let (s1, o1) := s0.BoolVar (fun b o => { o with cloud := b }) "cloud" false zeroOptions
  let (s2, o2) := s1.StringVar (fun v o => { o with certsDir := v }) "certs-dir"
    "/Users/bergundy/temporal/cloud-certs" o1
  let (s3, o3) := s2.BoolVar (fun b o => { o with skipEnvSetup := b }) "skip-env-setup" false o2
  let (s4, o4) := s3.StringVar (fun v o => { o with callerNamespace := v }) "caller-namespace"
    "nexus-poc-caller.temporal-dev" o3
  s4.StringVar (fun v o => { o with handlerNamespace := v }) "handler-namespace"
    "nexus-poc-handler.temporal-dev" o4

/-- The function `getOptions`.  Each pass of the parse loop that goes on
consumes an argument, so `args.length + 1` passes are enough.  Under
`flag.ExitOnError` the method `Parse` exits instead of returning an error, so
the `log.Panic` branch after it is never taken. -/
def getOptions (args : List String) : Parsed :=
  getOptionsFlags.1.Parse (args.length + 1) args getOptionsFlags.2

/-! ## `go/poc.go` -/

/-- The type `client.StartWorkflowOptions`, with the fields the program sets. -/
structure StartWorkflowOptions where
  ID : String
  TaskQueue : String
  deriving DecidableEq, Repr

/-- A call `main` makes on the SDK, in the order of the source.  Operations and
workflows are named by the Go identifier handed to the call. -/
inductive PocCall
  | Dial (o : ClientOptions)
  | workerNew (taskQueue : String)
  | RegisterOperation (op : String)
  | RegisterWorkflow (wf : String)
  | Start
  | ExecuteWorkflow (o : StartWorkflowOptions) (wf : String)
  | Stop
  deriving DecidableEq, Repr

/-- What the external calls of `main` return: the error of `client.Dial`, of
`w.Start()` and of `c.ExecuteWorkflow` (`none` for nil). -/
structure PocWorld where
  dial : ClientOptions → Option GoError
  start : Option GoError
  executeWorkflow : StartWorkflowOptions → String → Option GoError

/-- A run of `main`: the calls made, oldest first, and how it ended. -/
structure PocRun where
  calls : List PocCall
  outcome : Outcome
  deriving DecidableEq, Repr

/-- The options `main` dials with. -/
def mainClientOptions : ClientOptions :=
  { HostPort := "localhost:7233", Namespace := "default", TLS := none }

/-- The options `main` starts the caller workflow with. -/
def mainStartOptions : StartWorkflowOptions :=
  { ID := "", TaskQueue := "my-task-queue" }

/-- The function `main` of `poc.go`.  `w.Start()` and `c.ExecuteWorkflow(...)`
are expression statements: what they return is discarded.  The deferred
`w.Stop()` runs when `main` returns. -/
def main (w : PocWorld) : PocRun :=
  match w.dial mainClientOptions with
  | some err => ⟨[.Dial mainClientOptions], .logPanic [.err err]⟩
  | none =>
    ⟨[.Dial mainClientOptions,
      .workerNew "my-task-queue",
      .RegisterOperation "startWorkflowSimple",
      .RegisterOperation "startWorkflowWithMapperOp",
      .RegisterOperation "queryOp",
      .RegisterOperation "signalOp",
      .RegisterWorkflow "MyCallerWorkflow",
      .RegisterWorkflow "MyHandlerWorkflow",
      .Start,
      .ExecuteWorkflow mainStartOptions "MyCallerWorkflow",
      .Stop], .returned⟩

/-- A value of Go type `any` as a context can carry it. -/
inductive GoValue
  | nil
  | str (s : String)
  | int (n : Int)
  | bool (b : Bool)
  deriving DecidableEq, Repr

/-- A context key: the value `tenantIDKey{}` or a key of another type. -/
inductive CtxKey
  | tenantIDKey
  | otherKey (name : String)
  deriving DecidableEq, Repr

/-- A `context.Context`, as the pairs added by `context.WithValue`, the latest
first. -/
abbrev Context := List (CtxKey × GoValue)

/-- The call `context.WithValue(ctx, key, val)`. -/
def Context.WithValue (ctx : Context) (key : CtxKey) (val : GoValue) : Context :=
  (key, val) :: ctx

/-- The method `ctx.Value(key)`: the latest value stored under `key`, nil when
there is none. -/
def Context.Value (ctx : Context) (key : CtxKey) : GoValue :=
  match ctx.lookup key with
  | some v => v
  | none => .nil

/-- Go `strings.Join`. -/
def stringsJoin (elems : List String) (sep : String) : String :=
  match elems with
  | [] => ""
  | [e] => e
  | e :: rest => rest.foldl (fun b s => b ++ sep ++ s) e

/-- A runtime panic of `poc.go`: the failed type assertion `x.(string)`, with
the value that was asserted. -/
inductive RuntimePanic
  | typeAssertion (v : GoValue)
  deriving DecidableEq, Repr

/-- The function `constructID`.  The single-value type assertion
`ctx.Value(tenantIDKey{}).(string)` panics unless the value is a string. -/
def constructID (ctx : Context) (operation : String) (parts : List String) :
    Except RuntimePanic String :=
  match ctx.Value .tenantIDKey with
  | .str tenantID => .ok (operation ++ "-" ++ tenantID ++ "-" ++ stringsJoin parts "-")
  | v => .error (.typeAssertion v)

/-- The struct `MyInput`. -/
structure MyInput where
  CellID : String
  Stuff : Int
  deriving DecidableEq, Repr

/-- The workflow ID computed in the `Start` function of `startWorkflowOp`. -/
def startWorkflowOpID (ctx : Context) (input : MyInput) : Except RuntimePanic String :=
  constructID ctx "provision-cell" [input.CellID]

/-! ## Concrete worlds and inputs used to evaluate the program -/

/-- The full sequence of RPCs `setupEnv` issues when nothing stops it. -/
def fullSequence (serviceName : String) (opts : options) : List Rpc :=
  registerCalls opts ++
    [.UpdateNamespace (updateNamespaceRequest serviceName),
     .DescribeNamespace describeNamespaceRequest,
     .CreateOrUpdateNexusIncomingService (createOrUpdateRequest serviceName),
     .GetNexusIncomingService (getServiceRequest serviceName)]

/-- A world in which every external call succeeds and both registries show the
service `sn` after the updates. -/
def okWorld (sn : String) : World :=
  { filepathJoin := fun d f => d ++ "/" ++ f
    loadX509KeyPair := fun c _ => .ok ⟨c⟩
    readFile := fun p => .ok p
    appendCertsFromPEM := fun _ => true
    dial := fun _ => none
    registerNamespace := fun _ => none
    updateNamespace := fun _ => none
    describeNamespace := fun _ => .ok ⟨some ⟨[(sn, ⟨"http://localhost:7253/" ++ sn⟩)]⟩⟩
    createOrUpdateNexusIncomingService := fun _ => none
    getNexusIncomingService := fun r =>
      .ok ⟨some ⟨r.Name, "nexus-poc-handler.temporal-dev", "my-handler-queue"⟩⟩ }

/-- The options `getOptions` returns for no arguments. -/
def defaultOptions : options :=
  { cloud := false
    certsDir := "/Users/bergundy/temporal/cloud-certs"
    skipEnvSetup := false
    callerNamespace := "nexus-poc-caller.temporal-dev"
    handlerNamespace := "nexus-poc-handler.temporal-dev" }

/-- An error that is not a namespace-already-exists error. -/
def unavailableError : GoError := ⟨.other, "service unavailable"⟩

/-- The namespace-already-exists error. -/
def alreadyExistsError : GoError := ⟨.namespaceAlreadyExists, "Namespace already exists."⟩

/-- A world in which both `RegisterNamespace` calls fail with an error that is
not namespace-already-exists and every other call succeeds. -/
def registerFailsWorld : World :=
  { okWorld "svc" with registerNamespace := fun _ => some unavailableError }

/-- A world in which both `RegisterNamespace` calls answer
namespace-already-exists and every other call succeeds. -/
def alreadyExistsWorld : World :=
  { okWorld "svc" with registerNamespace := fun _ => some alreadyExistsError }

/-- A world in which `UpdateNamespace` fails and every other call succeeds. -/
def updateFailsWorld : World :=
  { okWorld "svc" with updateNamespace := fun _ => some unavailableError }

/-- A world in which every call succeeds and `DescribeNamespace` answers a
namespace whose outgoing service registry is empty. -/
def registryNotUpdatedWorld : World :=
  { okWorld "svc" with describeNamespace := fun _ => .ok ⟨some ⟨[]⟩⟩ }

/-- Options naming namespaces other than the defaults, as
`-caller-namespace nexus-poc-caller.a1b2c -handler-namespace nexus-poc-handler.a1b2c`
gives them. -/
def accountOptions : options :=
  { defaultOptions with
    callerNamespace := "nexus-poc-caller.a1b2c"
    handlerNamespace := "nexus-poc-handler.a1b2c" }

/-- The namespace an RPC of the outgoing-service registration is sent for. -/
def Rpc.outgoingNamespace : Rpc → Option String
  | .UpdateNamespace req => some req.Namespace
  | .DescribeNamespace req => some req.Namespace
  | _ => none

/-- The namespace an incoming-service registration maps the service to. -/
def Rpc.incomingNamespace : Rpc → Option String
  | .CreateOrUpdateNexusIncomingService req => req.NexusIncomingService.map fun svc => svc.Namespace
  | _ => none

/-- A world of `main` in which `client.Dial` succeeds and `c.ExecuteWorkflow`
returns an error. -/
def executeFailsWorld : PocWorld :=
  { dial := fun _ => none, start := none, executeWorkflow := fun _ _ => some unavailableError }

/-- A world of `main` in which `client.Dial` fails. -/
def dialFailsWorld : PocWorld :=
  { dial := fun _ => some unavailableError, start := none, executeWorkflow := fun _ _ => none }

/-- The calls of a run of `main` in which `client.Dial` succeeded. -/
def mainCalls : List PocCall :=
  [.Dial mainClientOptions,
   .workerNew "my-task-queue",
   .RegisterOperation "startWorkflowSimple",
   .RegisterOperation "startWorkflowWithMapperOp",
   .RegisterOperation "queryOp",
   .RegisterOperation "signalOp",
   .RegisterWorkflow "MyCallerWorkflow",
   .RegisterWorkflow "MyHandlerWorkflow",
   .Start,
   .ExecuteWorkflow mainStartOptions "MyCallerWorkflow",
   .Stop]

/-! ## Lemmas on `setupEnv` -/

theorem registerCalls_local (opts : options) (h : opts.cloud = false) :
    registerCalls opts =
      [.RegisterNamespace registerCallerRequest, .RegisterNamespace registerHandlerRequest] := by
  simp [registerCalls, h]

theorem registerCalls_cloud (opts : options) (h : opts.cloud = true) :
    registerCalls opts = [] := by
  simp [registerCalls, h]

theorem registerCalls_cases (opts : options) :
    registerCalls opts = [] ∨ registerCalls opts =
      [.RegisterNamespace registerCallerRequest, .RegisterNamespace registerHandlerRequest] := by
  cases hc : opts.cloud
  · exact Or.inr (registerCalls_local opts hc)
  · exact Or.inl (registerCalls_cloud opts hc)

/-- What `RegisterNamespace` returns has no effect on a run of `setupEnv`. -/
theorem setupEnv_registerNamespace_irrelevant (sn : String) (w : World) (opts : options)
    (f : RegisterNamespaceRequest → Option GoError) :
    setupEnv sn { w with registerNamespace := f } opts = setupEnv sn w opts := rfl

/-- Once the admin client is created, `setupEnv` issues the registration calls
of its mode and then `UpdateNamespace`. -/
theorem setupEnv_trace_starts (sn : String) (w : World) (opts : options) (c : Client)
    (hadm : createAdminClient w opts = .ok c) :
    ∃ rest, (setupEnv sn w opts).trace =
      registerCalls opts ++ .UpdateNamespace (updateNamespaceRequest sn) :: rest := by
  unfold setupEnv
  simp only [hadm]
  repeat' split
  all_goals simp

/-- The RPCs of any run of `setupEnv` are an initial part of the full sequence:
the requests do not depend on the namespaces in `opts`. -/
theorem setupEnv_trace_initial (sn : String) (w : World) (opts : options) :
    (setupEnv sn w opts).trace <+: fullSequence sn opts := by
  unfold setupEnv fullSequence
  repeat' split
  all_goals simp

/-- A run of `setupEnv` that returns normally has seen the outgoing registry
entry with a non-empty `BaseUrl` and the incoming service under its name. -/
theorem setupEnv_returned_only_if (sn : String) (w : World) (opts : options)
    (h : (setupEnv sn w opts).outcome = .returned) :
    (∃ d info spec, w.describeNamespace describeNamespaceRequest = .ok d ∧
        d.NamespaceInfo = some info ∧ info.OutgoingServiceRegistry.lookup sn = some spec ∧
        spec.BaseUrl ≠ "") ∧
      ∃ s svc, w.getNexusIncomingService (getServiceRequest sn) = .ok s ∧
        s.NexusIncomingService = some svc ∧ svc.Name = sn := by
  unfold setupEnv at h
  repeat' split at h
  all_goals simp at h
  rename_i d _ _ info hinfo _ spec hentry hurl _ _ _ s hget _ svc hsvc hname
  have hdesc : w.describeNamespace describeNamespaceRequest = .ok d := by assumption
  exact ⟨⟨d, info, spec, hdesc, hinfo, hentry, hurl⟩, s, svc, hget, hsvc, not_not.mp hname⟩

/-! ## Lemmas on flag parsing and on `strings.Join` -/

theorem not_add_two_lt_two (n : Nat) : ¬ (n + 1 + 1 < 2) := by omega

/-- Setting a flag leaves at most the arguments it was entered with. -/
theorem setFlag_args_le (f : FlagSet) (name : String) (value : Option String)
    (rest : List String) (o : options) :
    (f.setFlag name value rest o).args.length ≤ rest.length := by
  unfold FlagSet.setFlag
  repeat' split
  all_goals simp

/-- A pass of `parseOne` that saw a flag consumed at least one argument. -/
theorem parseOne_seen_lt (f : FlagSet) (args : List String) (o : options) :
    (f.parseOne args o).seen = true → (f.parseOne args o).args.length < args.length := by
  unfold FlagSet.parseOne
  cases args with
  | nil => simp
  | cons s rest =>
    simp only
    split_ifs
    all_goals first
      | exact fun _ => Nat.lt_succ_of_le (setFlag_args_le _ _ _ _ _)
      | simp

/-- The loop of `FlagSet.Parse` ends within `args.length + 1` passes. -/
theorem Parse_ne_outOfFuel (f : FlagSet) :
    ∀ (fuel : Nat) (args : List String) (o : options),
      args.length < fuel → f.Parse fuel args o ≠ .outOfFuel := by
  intro fuel
  induction fuel with
  | zero => intro args o h; omega
  | succ n ih =>
    intro args o h
    have hlt := parseOne_seen_lt f args o
    unfold FlagSet.Parse
    rcases hp : f.parseOne args o with ⟨seen, err, args1, o1⟩
    rw [hp] at hlt
    cases seen with
    | true =>
      simp only
      exact ih args1 o1 (by have := hlt rfl; simp only at this; omega)
    | false =>
      cases err with
      | none => simp
      | some e =>
        simp only
        split <;> simp

/-- The function `getOptions` always ends: with options or with `os.Exit`. -/
theorem getOptions_ne_outOfFuel (args : List String) : getOptions args ≠ .outOfFuel :=
  Parse_ne_outOfFuel _ _ _ _ (Nat.lt_succ_self _)

theorem intercalate_go_eq_foldl (sep : String) (rest : List String) :
    ∀ acc : String, String.intercalate.go acc sep rest = rest.foldl (fun b s => b ++ sep ++ s) acc := by
  induction rest with
  | nil => intro acc; rfl
  | cons a as ih => intro acc; simp [String.intercalate.go, ih]

/-- The model of `strings.Join` is the library join of the list with the
separator between consecutive elements. -/
theorem stringsJoin_eq_intercalate (elems : List String) (sep : String) :
    stringsJoin elems sep = sep.intercalate elems := by
  match elems with
  | [] => rfl
  | [e] => rfl
  | e :: e1 :: rest =>
    simp [stringsJoin, String.intercalate, intercalate_go_eq_foldl]

/-! ## The claims -/

/-- C1, as stated, fails: in local mode both `RegisterNamespace` calls return
an error that is not namespace-already-exists, and `setupEnv` is not
terminated: it issues the four later RPCs and returns normally. -/
theorem setupEnv_register_error_not_fatal :
    defaultOptions.cloud = false ∧
    registerFailsWorld.errorOf (.RegisterNamespace registerCallerRequest) = some unavailableError ∧
    registerFailsWorld.errorOf (.RegisterNamespace registerHandlerRequest) = some unavailableError ∧
    unavailableError.kind ≠ .namespaceAlreadyExists ∧
    setupEnv "svc" registerFailsWorld defaultOptions =
      ⟨[.RegisterNamespace registerCallerRequest,
        .RegisterNamespace registerHandlerRequest,
        .UpdateNamespace (updateNamespaceRequest "svc"),
        .DescribeNamespace describeNamespaceRequest,
        .CreateOrUpdateNexusIncomingService (createOrUpdateRequest "svc"),
        .GetNexusIncomingService (getServiceRequest "svc")], .returned⟩ := by
  refine ⟨rfl, rfl, rfl, by decide, rfl⟩

/-- C1, amended: in local mode, once the admin client is created, whatever the
two `RegisterNamespace` calls return (an error of any kind or none) is
discarded: the run is the same for every behaviour `f` of `RegisterNamespace`,
and it goes on from the two registrations to `UpdateNamespace`. -/
theorem setupEnv_register_errors_discarded (sn : String) (w : World) (opts : options)
    (c : Client) (hlocal : opts.cloud = false) (hadm : createAdminClient w opts = .ok c) :
    (∀ f : RegisterNamespaceRequest → Option GoError,
        setupEnv sn { w with registerNamespace := f } opts = setupEnv sn w opts) ∧
      ∃ rest, (setupEnv sn w opts).trace =
        .RegisterNamespace registerCallerRequest :: .RegisterNamespace registerHandlerRequest ::
          .UpdateNamespace (updateNamespaceRequest sn) :: rest := by
  refine ⟨fun f => setupEnv_registerNamespace_irrelevant sn w opts f, ?_⟩
  obtain ⟨rest, h⟩ := setupEnv_trace_starts sn w opts c hadm
  exact ⟨rest, by rw [h, registerCalls_local opts hlocal]; rfl⟩

/-- C1, amended, at a concrete input: the world whose registrations fail with
"service unavailable" runs exactly as the world whose registrations succeed. -/
theorem setupEnv_register_errors_discarded_witness :
    defaultOptions.cloud = false ∧
    createAdminClient registerFailsWorld defaultOptions =
      .ok ⟨⟨"localhost:7233", "ignored", none⟩⟩ ∧
    setupEnv "svc" (okWorld "svc") defaultOptions = setupEnv "svc" registerFailsWorld defaultOptions :=
  ⟨rfl, rfl,
    (setupEnv_register_errors_discarded "svc" registerFailsWorld defaultOptions _ rfl rfl).1
      (fun _ => none)⟩

/-- C2: in local mode, when an issued `RegisterNamespace` call (it stands at
position `i` of the trace) returns a namespace-already-exists error, `setupEnv`
does not end there (a later RPC is issued), and the whole run, the later RPCs
with their requests and the way it ends, is the run of the world that differs
only in that this call succeeded. -/
theorem setupEnv_already_exists_ignored (sn : String) (w : World) (opts : options) (i : Nat)
    (req : RegisterNamespaceRequest)
    (hlocal : opts.cloud = false)
    (hissued : (setupEnv sn w opts).trace[i]? = some (.RegisterNamespace req))
    (herr : ∃ e, w.errorOf (.RegisterNamespace req) = some e ∧
      e.kind = .namespaceAlreadyExists) :
    i + 1 < (setupEnv sn w opts).trace.length ∧
      w.errorOf (.RegisterNamespace req) ≠ none ∧
      World.errorOf { w with registerNamespace := fun q =>
          if q = req then none else w.registerNamespace q } (.RegisterNamespace req) = none ∧
      setupEnv sn w opts =
        setupEnv sn { w with registerNamespace := fun q =>
          if q = req then none else w.registerNamespace q } opts := by
  refine ⟨?_, ?_, by simp [World.errorOf],
    (setupEnv_registerNamespace_irrelevant sn w opts _).symm⟩
  · unfold setupEnv at hissued ⊢
    simp only [registerCalls_local opts hlocal] at hissued ⊢
    repeat' split at hissued
    all_goals
      rcases i with _ | _ | _ | _ | _ | _ | i <;> simp at hissued <;> simp_all
  · obtain ⟨e, he, _⟩ := herr
    simp [he]

/-- C2 at a concrete input: both registrations answer namespace-already-exists,
the first is issued at position 0, and the run is the run of the world in
which it succeeded. -/
theorem setupEnv_already_exists_ignored_witness :
    0 + 1 < (setupEnv "svc" alreadyExistsWorld defaultOptions).trace.length ∧
      setupEnv "svc" alreadyExistsWorld defaultOptions =
        setupEnv "svc" { alreadyExistsWorld with registerNamespace := fun q =>
          if q = registerCallerRequest then none else alreadyExistsWorld.registerNamespace q }
          defaultOptions :=
  have h := setupEnv_already_exists_ignored "svc" alreadyExistsWorld defaultOptions 0
    registerCallerRequest rfl rfl ⟨alreadyExistsError, rfl, rfl⟩
  ⟨h.1, h.2.2.2⟩

/-- C3: when one of the four RPCs `UpdateNamespace`, `DescribeNamespace`,
`CreateOrUpdateNexusIncomingService`, `GetNexusIncomingService` is issued (it
stands at position `i` of the trace) and returns a non-nil error `e`,
`setupEnv` ends in `log.Fatal(e)` and that RPC is the last one issued; the
RPCs issued are always an initial part of the full sequence, so they come in
that order. -/
theorem setupEnv_fails_fast (sn : String) (w : World) (opts : options) (i : Nat) (r : Rpc)
    (e : GoError)
    (hissued : (setupEnv sn w opts).trace[i]? = some r)
    (hfour : ∀ req, r ≠ .RegisterNamespace req)
    (herr : w.errorOf r = some e) :
    (setupEnv sn w opts).outcome = .logFatal [.err e] ∧
      i + 1 = (setupEnv sn w opts).trace.length ∧
      (setupEnv sn w opts).trace <+: fullSequence sn opts := by
  unfold setupEnv at hissued ⊢
  unfold fullSequence
  rcases registerCalls_cases opts with hr | hr <;> simp only [hr] at hissued ⊢ <;>
    repeat' split at hissued
  all_goals
    rcases i with _ | _ | _ | _ | _ | _ | i <;> simp at hissued <;>
      (try subst hissued) <;> simp_all [World.errorOf]

/-- C3 at a concrete input: `UpdateNamespace`, third in the local-mode trace,
fails; the run ends there in `log.Fatal` of that error. -/
theorem setupEnv_fails_fast_witness :
    (setupEnv "svc" updateFailsWorld defaultOptions).outcome = .logFatal [.err unavailableError] ∧
      2 + 1 = (setupEnv "svc" updateFailsWorld defaultOptions).trace.length ∧
      (setupEnv "svc" updateFailsWorld defaultOptions).trace <+: fullSequence "svc" defaultOptions :=
  setupEnv_fails_fast "svc" updateFailsWorld defaultOptions 2
    (.UpdateNamespace (updateNamespaceRequest "svc")) unavailableError rfl
    (fun _ h => Rpc.noConfusion h) rfl

/-- C4: `getOptions` defines exactly the five flags `cloud`, `certs-dir`,
`skip-env-setup`, `caller-namespace`, `handler-namespace`; for no arguments it
returns the defaults; an argument list that sets one flag (`-name value` or
`-name=value` for a string flag, `-name` or `-name=b` with `b` a boolean
spelling for a boolean flag, with one dash or two) gives that field the value
and leaves every other field at its default. -/
theorem getOptions_flags_and_defaults :
    getOptionsFlags.1.formal.map (fun fl => fl.Name) =
        ["cloud", "certs-dir", "skip-env-setup", "caller-namespace", "handler-namespace"] ∧
    getOptions [] = .ok
      { cloud := false
        certsDir := "/Users/bergundy/temporal/cloud-certs"
        skipEnvSetup := false
        callerNamespace := "nexus-poc-caller.temporal-dev"
        handlerNamespace := "nexus-poc-handler.temporal-dev" } ∧
    (∀ v : String,
      getOptions ["-certs-dir", v] = .ok { defaultOptions with certsDir := v } ∧
      getOptions ["-certs-dir=" ++ v] = .ok { defaultOptions with certsDir := v } ∧
      getOptions ["--certs-dir", v] = .ok { defaultOptions with certsDir := v } ∧
      getOptions ["--certs-dir=" ++ v] = .ok { defaultOptions with certsDir := v } ∧
      getOptions ["-caller-namespace", v] = .ok { defaultOptions with callerNamespace := v } ∧
      getOptions ["-caller-namespace=" ++ v] = .ok { defaultOptions with callerNamespace := v } ∧
      getOptions ["--caller-namespace", v] = .ok { defaultOptions with callerNamespace := v } ∧
      getOptions ["--caller-namespace=" ++ v] = .ok { defaultOptions with callerNamespace := v } ∧
      getOptions ["-handler-namespace", v] = .ok { defaultOptions with handlerNamespace := v } ∧
      getOptions ["-handler-namespace=" ++ v] = .ok { defaultOptions with handlerNamespace := v } ∧
      getOptions ["--handler-namespace", v] = .ok { defaultOptions with handlerNamespace := v } ∧
      getOptions ["--handler-namespace=" ++ v] =
        .ok { defaultOptions with handlerNamespace := v }) ∧
    getOptions ["-cloud"] = .ok { defaultOptions with cloud := true } ∧
    getOptions ["--cloud"] = .ok { defaultOptions with cloud := true } ∧
    getOptions ["-skip-env-setup"] = .ok { defaultOptions with skipEnvSetup := true } ∧
    getOptions ["--skip-env-setup"] = .ok { defaultOptions with skipEnvSetup := true } ∧
    (∀ (s : String) (b : Bool), parseBool s = some b →
      getOptions ["-cloud=" ++ s] = .ok { defaultOptions with cloud := b } ∧
      getOptions ["--cloud=" ++ s] = .ok { defaultOptions with cloud := b } ∧
      getOptions ["-skip-env-setup=" ++ s] = .ok { defaultOptions with skipEnvSetup := b } ∧
      getOptions ["--skip-env-setup=" ++ s] = .ok { defaultOptions with skipEnvSetup := b }) := by
  refine ⟨rfl, rfl, fun v => ?_, rfl, rfl, rfl, rfl, fun s b h => ?_⟩
  · refine ⟨?_, ?_, ?_, ?_, ?_, ?_, ?_, ?_, ?_, ?_, ?_, ?_⟩ <;>
      simp [getOptions, getOptionsFlags, FlagSet.Parse, FlagSet.parseOne, FlagSet.setFlag,
        FlagSet.BoolVar, FlagSet.StringVar, splitNameValue, cutAtEq, zeroOptions, defaultOptions,
        not_add_two_lt_two]
  · refine ⟨?_, ?_, ?_, ?_⟩ <;>
      simp [getOptions, getOptionsFlags, FlagSet.Parse, FlagSet.parseOne, FlagSet.setFlag,
        FlagSet.BoolVar, FlagSet.StringVar, splitNameValue, cutAtEq, zeroOptions, defaultOptions,
        not_add_two_lt_two, h]

/-- C4 at concrete inputs: `-cloud=false` keeps `cloud` false, `-cloud=T` sets
it, and every other field is the default. -/
theorem getOptions_flags_and_defaults_witness :
    parseBool "T" = some true ∧
    getOptions ["-cloud=" ++ "T"] = .ok { defaultOptions with cloud := true } ∧
    getOptions ["--skip-env-setup=" ++ "0"] = .ok { defaultOptions with skipEnvSetup := false } :=
  ⟨rfl, (getOptions_flags_and_defaults.2.2.2.2.2.2.2 "T" true rfl).1,
    (getOptions_flags_and_defaults.2.2.2.2.2.2.2 "0" false rfl).2.2.2⟩

/-- C5, as stated, fails: `client.Dial` succeeds, `c.ExecuteWorkflow` is called
and returns a non-nil error, and `main` returns normally. -/
theorem main_returns_after_execute_error :
    executeFailsWorld.dial mainClientOptions = none ∧
    executeFailsWorld.executeWorkflow mainStartOptions "MyCallerWorkflow" =
      some unavailableError ∧
    PocCall.ExecuteWorkflow mainStartOptions "MyCallerWorkflow" ∈ (main executeFailsWorld).calls ∧
    (main executeFailsWorld).outcome = .returned := by
  refine ⟨rfl, rfl, by decide, rfl⟩

/-- C5, amended: a non-nil error of `client.Dial` ends `main` at once in
`log.Panic` of that error, with no later call; when `client.Dial` succeeds,
what `c.ExecuteWorkflow` returns is discarded: for every behaviour `f` of
`ExecuteWorkflow`, `main` makes the same calls, the last being the deferred
`w.Stop()`, and returns normally. -/
theorem main_dial_panics_execute_discarded (w : PocWorld) :
    (∀ e, w.dial mainClientOptions = some e →
      main w = ⟨[.Dial mainClientOptions], .logPanic [.err e]⟩) ∧
    (w.dial mainClientOptions = none →
      ∀ f : StartWorkflowOptions → String → Option GoError,
        main { w with executeWorkflow := f } = ⟨mainCalls, .returned⟩) := by
  constructor
  · intro e h
    simp [main, h]
  · intro h f
    simp [main, h, mainCalls]

/-- C5, amended, at concrete inputs: a failing `client.Dial` panics, a failing
`c.ExecuteWorkflow` does not stop `main` from returning. -/
theorem main_dial_panics_execute_discarded_witness :
    main dialFailsWorld = ⟨[.Dial mainClientOptions], .logPanic [.err unavailableError]⟩ ∧
    main executeFailsWorld = ⟨mainCalls, .returned⟩ :=
  ⟨(main_dial_panics_execute_discarded dialFailsWorld).1 unavailableError rfl,
    (main_dial_panics_execute_discarded executeFailsWorld).2 rfl
      (fun _ _ => some unavailableError)⟩

/-- C6 fails on the code: with `-caller-namespace nexus-poc-caller.a1b2c
-handler-namespace nexus-poc-handler.a1b2c`, `createClients` dials the two
clients in those namespaces, while `setupEnv` sends `UpdateNamespace` and
`DescribeNamespace` for the literal `nexus-poc-caller.temporal-dev` and maps the
incoming service to the literal `nexus-poc-handler.temporal-dev`. -/
theorem setupEnv_namespaces_not_from_options :
    (createClients (okWorld "svc") accountOptions).map
        (fun p => (p.1.dialled.Namespace, p.2.dialled.Namespace)) =
      .ok (accountOptions.callerNamespace, accountOptions.handlerNamespace) ∧
    (setupEnv "svc" (okWorld "svc") accountOptions).outcome = .returned ∧
    (setupEnv "svc" (okWorld "svc") accountOptions).trace.filterMap Rpc.outgoingNamespace =
      ["nexus-poc-caller.temporal-dev", "nexus-poc-caller.temporal-dev"] ∧
    (setupEnv "svc" (okWorld "svc") accountOptions).trace.filterMap Rpc.incomingNamespace =
      ["nexus-poc-handler.temporal-dev"] ∧
    accountOptions.callerNamespace ≠ "nexus-poc-caller.temporal-dev" ∧
    accountOptions.handlerNamespace ≠ "nexus-poc-handler.temporal-dev" := by
  refine ⟨rfl, rfl, rfl, rfl, by decide, by decide⟩

/-- C7: when the admin client is created, every RPC succeeds and both registry
checks pass, `setupEnv` returns normally and the RPCs it issued are, in local
mode, `RegisterNamespace` for `nexus-poc-caller.temporal-dev` and for
`nexus-poc-handler.temporal-dev` (retention 24 hours, in nanoseconds),
`UpdateNamespace`, `DescribeNamespace`, `CreateOrUpdateNexusIncomingService`,
`GetNexusIncomingService`, in that order; in cloud mode the last four only. -/
theorem setupEnv_success_sequence (sn : String) (w : World) (opts : options) (c : Client)
    (d : DescribeNamespaceResponse) (info : NamespaceInfo) (spec : OutgoingServiceSpec)
    (s : GetNexusIncomingServiceResponse) (svc : NexusIncomingService)
    (hadm : createAdminClient w opts = .ok c)
    (hupd : w.updateNamespace (updateNamespaceRequest sn) = none)
    (hdesc : w.describeNamespace describeNamespaceRequest = .ok d)
    (hinfo : d.NamespaceInfo = some info)
    (hentry : info.OutgoingServiceRegistry.lookup sn = some spec)
    (hurl : spec.BaseUrl ≠ "")
    (hcou : w.createOrUpdateNexusIncomingService (createOrUpdateRequest sn) = none)
    (hget : w.getNexusIncomingService (getServiceRequest sn) = .ok s)
    (hsvc : s.NexusIncomingService = some svc)
    (hname : svc.Name = sn) :
    (setupEnv sn w opts).outcome = .returned ∧
    (opts.cloud = false → (setupEnv sn w opts).trace =
      [.RegisterNamespace ⟨"nexus-poc-caller.temporal-dev", some (24 * 3600 * 1000000000)⟩,
       .RegisterNamespace ⟨"nexus-poc-handler.temporal-dev", some (24 * 3600 * 1000000000)⟩,
       .UpdateNamespace (updateNamespaceRequest sn),
       .DescribeNamespace describeNamespaceRequest,
       .CreateOrUpdateNexusIncomingService (createOrUpdateRequest sn),
       .GetNexusIncomingService (getServiceRequest sn)]) ∧
    (opts.cloud = true → (setupEnv sn w opts).trace =
      [.UpdateNamespace (updateNamespaceRequest sn),
       .DescribeNamespace describeNamespaceRequest,
       .CreateOrUpdateNexusIncomingService (createOrUpdateRequest sn),
       .GetNexusIncomingService (getServiceRequest sn)]) := by
  have hrun : setupEnv sn w opts = ⟨fullSequence sn opts, .returned⟩ := by
    simp [setupEnv, hadm, hupd, hdesc, hinfo, hentry, hurl, hcou, hget, hsvc, hname, fullSequence]
  rw [hrun]
  refine ⟨rfl, fun h => ?_, fun h => ?_⟩
  · simp only [fullSequence, registerCalls_local opts h]
    rfl
  · simp only [fullSequence, registerCalls_cloud opts h]
    rfl

/-- C7 at concrete inputs: the all-succeeding world, in local mode and in
cloud mode. -/
theorem setupEnv_success_sequence_witness :
    (setupEnv "svc" (okWorld "svc") defaultOptions).trace.length = 6 ∧
    (setupEnv "svc" (okWorld "svc") { defaultOptions with cloud := true }).trace.length = 4 ∧
    (setupEnv "svc" (okWorld "svc") { defaultOptions with cloud := true }).outcome = .returned := by
  have hl := setupEnv_success_sequence "svc" (okWorld "svc") defaultOptions _ _ _ _ _ _
    rfl rfl rfl rfl rfl (by decide) rfl rfl rfl rfl
  have hc := setupEnv_success_sequence "svc" (okWorld "svc") { defaultOptions with cloud := true }
    _ _ _ _ _ _ rfl rfl rfl rfl rfl (by decide) rfl rfl rfl rfl
  exact ⟨by rw [hl.2.1 rfl]; rfl, by rw [hc.2.2 rfl]; rfl, hc.1⟩

/-- C8 fails on the code: every RPC returns no error and the outgoing service
registry of the `DescribeNamespace` response has no entry for the service; the
check `d.NamespaceInfo.OutgoingServiceRegistry[serviceName].BaseUrl == ""`
dereferences the nil map value, so `setupEnv` ends in a runtime panic after
`DescribeNamespace`, not in `log.Fatal("outgoing service registry not updated", ...)`. -/
theorem setupEnv_absent_entry_nil_dereference :
    (∀ r ∈ fullSequence "svc" defaultOptions, registryNotUpdatedWorld.errorOf r = none) ∧
    registryNotUpdatedWorld.describeNamespace describeNamespaceRequest = .ok ⟨some ⟨[]⟩⟩ ∧
    setupEnv "svc" registryNotUpdatedWorld defaultOptions =
      ⟨[.RegisterNamespace registerCallerRequest,
        .RegisterNamespace registerHandlerRequest,
        .UpdateNamespace (updateNamespaceRequest "svc"),
        .DescribeNamespace describeNamespaceRequest], .nilDereference⟩ ∧
    (setupEnv "svc" registryNotUpdatedWorld defaultOptions).outcome ≠
      .logFatal [.str "outgoing service registry not updated", .registry []] := by
  refine ⟨?_, rfl, rfl, by decide⟩
  intro r hr
  simp [fullSequence, registerCalls, defaultOptions] at hr
  rcases hr with h | h | h | h | h | h <;> subst h <;> rfl

/-- C9: `constructID` returns an ID exactly when the context carries a string
under `tenantIDKey`; for that tenant ID `t` the ID is
`operation ++ "-" ++ t ++ "-" ++` the parts joined with `"-"`, which with no
parts is `operation ++ "-" ++ t ++ "-"`; for every other context (no value, or
a value that is not a string) it panics in the type assertion. -/
theorem constructID_spec (ctx : Context) (operation : String) (parts : List String) :
    ((∃ id, constructID ctx operation parts = .ok id) ↔
      ∃ t, ctx.Value .tenantIDKey = .str t) ∧
    (∀ t, ctx.Value .tenantIDKey = .str t →
      constructID ctx operation parts =
        .ok (operation ++ "-" ++ t ++ "-" ++ "-".intercalate parts) ∧
      constructID ctx operation [] = .ok (operation ++ "-" ++ t ++ "-")) ∧
    ((∀ t, ctx.Value .tenantIDKey ≠ .str t) →
      constructID ctx operation parts = .error (.typeAssertion (ctx.Value .tenantIDKey))) := by
  unfold constructID
  refine ⟨?_, ?_, ?_⟩
  · cases h : ctx.Value .tenantIDKey <;> simp
  · intro t h
    simp [h, stringsJoin_eq_intercalate, String.intercalate]
  · intro h
    cases hv : ctx.Value .tenantIDKey with
    | str t => exact absurd hv (h t)
    | nil => rfl
    | int n => rfl
    | bool b => rfl

/-- C9 at concrete inputs: a context with tenant "t1", an empty context, and a
context whose value under the key is an integer. -/
theorem constructID_spec_witness :
    constructID [(.tenantIDKey, .str "t1")] "provision-cell" ["cell", "7"] =
      .ok "provision-cell-t1-cell-7" ∧
    constructID [(.tenantIDKey, .str "t1")] "provision-cell" [] = .ok "provision-cell-t1-" ∧
    constructID [] "provision-cell" ["cell"] = .error (.typeAssertion .nil) ∧
    constructID [(.tenantIDKey, .int 5)] "provision-cell" ["cell"] =
      .error (.typeAssertion (.int 5)) := by
  have h1 := (constructID_spec [(.tenantIDKey, .str "t1")] "provision-cell" ["cell", "7"]).2.1
    "t1" rfl
  have h2 := (constructID_spec [] "provision-cell" ["cell"]).2.2
    (fun t h => GoValue.noConfusion h)
  have h3 := (constructID_spec [(.tenantIDKey, .int 5)] "provision-cell" ["cell"]).2.2
    (fun t h => GoValue.noConfusion h)
  exact ⟨h1.1.trans rfl, h1.2.trans rfl, h2, h3⟩

end NexusPoc
